import Mathlib

/-!
Verification model of the wavefront GPU path tracer
(src/CUDA_Source/Pathtracer.cu and the host driver src/Pathtracer.cpp).

Floating-point arithmetic is modelled exactly over the rationals.  The CUDA
intrinsics whose sources are not part of the repository snapshot (expf, sqrtf,
the Fresnel helpers, the microfacet D and G terms, the Halton tables and the
xorshift random draws) are abstracted as explicit function or value parameters,
so every theorem quantifies over them.  The fourth (w) channel of the float4
frame-buffer cells carries no radiance and is not modelled.
-/

namespace GPUPathtracer

/-- Model of the CUDA float3 vector, with exact rational components. -/
structure Float3 where
  x : ℚ
  y : ℚ
  z : ℚ
deriving DecidableEq, Repr

namespace Float3

/-- Componentwise addition (cuda_math operator+). -/
def add (a b : Float3) : Float3 := ⟨a.x + b.x, a.y + b.y, a.z + b.z⟩

/-- Componentwise subtraction (cuda_math operator-). -/
def sub (a b : Float3) : Float3 := ⟨a.x - b.x, a.y - b.y, a.z - b.z⟩

/-- Componentwise multiplication (cuda_math operator* on two float3). -/
def mul (a b : Float3) : Float3 := ⟨a.x * b.x, a.y * b.y, a.z * b.z⟩

/-- Componentwise negation. -/
def neg (a : Float3) : Float3 := ⟨-a.x, -a.y, -a.z⟩

/-- Scalar multiplication (cuda_math operator* with a float). -/
def smul (s : ℚ) (a : Float3) : Float3 := ⟨s * a.x, s * a.y, s * a.z⟩

/-- The zero vector, make_float3(0.0f). -/
def zero : Float3 := ⟨0, 0, 0⟩

/-- The all-ones vector, make_float3(1.0f). -/
def one : Float3 := ⟨1, 1, 1⟩

instance : Add Float3 := ⟨Float3.add⟩
instance : Sub Float3 := ⟨Float3.sub⟩
instance : Mul Float3 := ⟨Float3.mul⟩
instance : Neg Float3 := ⟨Float3.neg⟩
instance : SMul ℚ Float3 := ⟨Float3.smul⟩
instance : Zero Float3 := ⟨Float3.zero⟩

@[simp] theorem add_def (a b : Float3) :
    a + b = ⟨a.x + b.x, a.y + b.y, a.z + b.z⟩ := rfl

@[simp] theorem sub_def (a b : Float3) :
    a - b = ⟨a.x - b.x, a.y - b.y, a.z - b.z⟩ := rfl

@[simp] theorem mul_def (a b : Float3) :
    a * b = ⟨a.x * b.x, a.y * b.y, a.z * b.z⟩ := rfl

@[simp] theorem neg_def (a : Float3) : -a = ⟨-a.x, -a.y, -a.z⟩ := rfl

@[simp] theorem smul_def (s : ℚ) (a : Float3) :
    s • a = ⟨s * a.x, s * a.y, s * a.z⟩ := rfl

@[simp] theorem zero_def : (0 : Float3) = ⟨0, 0, 0⟩ := rfl

@[ext] theorem ext {a b : Float3}
    (hx : a.x = b.x) (hy : a.y = b.y) (hz : a.z = b.z) : a = b := by
  cases a; cases b; simp_all

instance : AddCommMonoid Float3 where
  add_assoc a b c := by ext <;> simp <;> ring
  zero_add a := by ext <;> simp
  add_zero a := by ext <;> simp
  add_comm a b := by ext <;> simp <;> ring
  nsmul n a := (n : ℚ) • a
  nsmul_zero a := by ext <;> simp
  nsmul_succ n a := by ext <;> simp <;> ring

/-- Dot product (cuda_math dot). -/
def dot (a b : Float3) : ℚ := a.x * b.x + a.y * b.y + a.z * b.z

end Float3

/-- The sentinel triangle id used to signal a missed ray (Common.h INVALID,
observed as -1 in the ASSERT at Pathtracer.cu line 575). -/
def INVALID : Int := -1

/-- Hit record produced by the trace kernel (RayHit in unnamed source part_001). -/
structure RayHit where
  t : ℚ
  u : ℚ
  v : ℚ
  mesh_id : Int
  triangle_id : Int
deriving DecidableEq, Repr

/-- The four material kinds of the renderer. -/
inductive MaterialType where
  | DIFFUSE
  | DIELECTRIC
  | GLOSSY
  | LIGHT
deriving DecidableEq, Repr

/-- Reconstruction filters recognised by kernel_generate. -/
inductive ReconstructionFilter where
  | BOX
  | GAUSSIAN
deriving DecidableEq, Repr

/-- The per-frame Settings record (Common.h is not in the snapshot; the fields
are those read by the kernels plus the host-level flags named in the claims). -/
structure Settings where
  enable_svgf : Bool
  enable_taa : Bool
  modulate_albedo : Bool
  enable_next_event_estimation : Bool
  enable_multiple_importance_sampling : Bool
  reconstruction_filter : ReconstructionFilter
  num_bounces : Nat
deriving DecidableEq, Repr

/-- The CUDA fmaxf intrinsic. -/
def fmaxf (a b : ℚ) : ℚ := if a ≤ b then b else a

/-- The CUDA fminf intrinsic. -/
def fminf (a b : ℚ) : ℚ := if a ≤ b then a else b

/-- cuda_math saturate: clamp to the unit interval. -/
def saturate (q : ℚ) : ℚ := fminf (fmaxf q 0) 1

/-- The CUDA vmax_max intrinsic: maximum of three values. -/
def vmax_max (a b c : ℚ) : ℚ := fmaxf a (fmaxf b c)

/-- Scene queries used by kernel_sort.  The triangle, material and sky helpers
live in headers that are not part of the snapshot (Material.h, Sky.h, BVH.h),
so they are abstract fields here; kernel_sort only composes their results. -/
structure SortScene where
  /-- triangle_get_material_id -/
  triangle_material_id : Int → Nat
  /-- material_get_type -/
  material_type : Nat → MaterialType
  /-- material_as_light(id).emission -/
  material_emission : Nat → Float3
  /-- sample_sky (Sky.h) -/
  sample_sky : Float3 → Float3
  /-- triangle_get_positions_and_normals + triangle_barycentric +
  mesh_get_transform, composed: the world-space light point of a hit. -/
  light_point_world : RayHit → Float3
  /-- The same composition for the normalized world-space light normal. -/
  light_normal_world : RayHit → Float3
  /-- lights_total_power device constant -/
  lights_total_power : ℚ
  /-- the sqrtf intrinsic -/
  sqrtf : ℚ → ℚ

/-- One record of the trace queue as read by kernel_sort.  The packed word
pixel_index_and_mis_eligable is modelled as its two decoded components; rng is
the value of random_float_xorshift(wang_hash(index ^ rand_seed)) consumed by
the Russian-roulette gate (Random.h is not in the snapshot). -/
structure TraceRay where
  origin : Float3
  direction : Float3
  hit : RayHit
  pixel_index : Nat
  mis_eligable : Bool
  throughput : Float3
  last_pdf : ℚ
  rng : ℚ
deriving DecidableEq, Repr

/-- Throughput as loaded by kernel_sort: for bounce <= 1 the global memory load
is skipped and (1,1,1) is used (Pathtracer.cu lines 128-133). -/
def traceThroughput (bounce : Nat) (r : TraceRay) : Float3 :=
  if bounce ≤ 1 then Float3.one else r.throughput

/-- The image-space frame buffers touched by kernel_sort. -/
structure FrameBuffers where
  albedo : Nat → Float3
  direct : Nat → Float3
  indirect : Nat → Float3

/-- One entry written into a material queue by kernel_sort.  The throughput
field is only stored for bounce > 0 (the consumer assumes (1,1,1) at bounce 0),
hence the Option. -/
structure ShadePayload where
  direction : Float3
  hit : RayHit
  pixel_index : Nat
  throughput : Option Float3
deriving DecidableEq, Repr

/-- The per-bounce material queues and their counters.  Each write list records
(slot, payload) pairs in write order; the atomic counters allocate slots, the
glossy queue growing downward from BATCH_SIZE - 1 in the buffer it shares with
the dielectric queue. -/
structure QueueState where
  n_diffuse : Nat
  n_dielectric : Nat
  n_glossy : Nat
  diffuse_writes : List (Nat × ShadePayload)
  dielectric_writes : List (Nat × ShadePayload)
  glossy_writes : List (Nat × ShadePayload)
deriving DecidableEq, Repr

/-- The state read and written by kernel_sort. -/
structure SortState where
  frames : FrameBuffers
  queues : QueueState

/-- Queue state with all counters at zero, as at the start of a bounce. -/
def QueueState.init : QueueState := ⟨0, 0, 0, [], [], []⟩

namespace SortState

/-- Conditional albedo write frame_buffer_albedo[p] = make_float4(1.0f). -/
def writeAlbedoOne (s : Settings) (st : SortState) (p : Nat) : SortState :=
  if s.modulate_albedo || s.enable_svgf then
    { st with frames := { st.frames with
        albedo := Function.update st.frames.albedo p Float3.one } }
  else st

/-- frame_buffer_direct[p] = v (replacing). -/
def setDirect (st : SortState) (p : Nat) (v : Float3) : SortState :=
  { st with frames := { st.frames with
      direct := Function.update st.frames.direct p v } }

/-- frame_buffer_direct[p] += v. -/
def addDirect (st : SortState) (p : Nat) (v : Float3) : SortState :=
  { st with frames := { st.frames with
      direct := Function.update st.frames.direct p (st.frames.direct p + v) } }

/-- frame_buffer_indirect[p] += v. -/
def addIndirect (st : SortState) (p : Nat) (v : Float3) : SortState :=
  { st with frames := { st.frames with
      indirect := Function.update st.frames.indirect p (st.frames.indirect p + v) } }

/-- Allocate the next diffuse slot (atomic_agg_inc on buffer_sizes.diffuse)
and store the payload at it. -/
def pushDiffuse (st : SortState) (pay : ShadePayload) : SortState :=
  { st with queues := { st.queues with
      n_diffuse := st.queues.n_diffuse + 1,
      diffuse_writes := st.queues.diffuse_writes ++ [(st.queues.n_diffuse, pay)] } }

/-- Allocate the next dielectric slot (growing upward from 0). -/
def pushDielectric (st : SortState) (pay : ShadePayload) : SortState :=
  { st with queues := { st.queues with
      n_dielectric := st.queues.n_dielectric + 1,
      dielectric_writes :=
        st.queues.dielectric_writes ++ [(st.queues.n_dielectric, pay)] } }

/-- Allocate the next glossy slot (BATCH_SIZE - 1) - atomic_agg_inc, growing
downward in the buffer shared with the dielectric queue. -/
def pushGlossy (B : Nat) (st : SortState) (pay : ShadePayload) : SortState :=
  { st with queues := { st.queues with
      n_glossy := st.queues.n_glossy + 1,
      glossy_writes :=
        st.queues.glossy_writes ++ [(B - 1 - st.queues.n_glossy, pay)] } }

end SortState

/-- The survival probability of the Russian-roulette gate:
saturate(vmax_max of the components of throughput * albedo). -/
def rr_survival (tp albedo : Float3) : ℚ :=
  saturate (vmax_max (tp.x * albedo.x) (tp.y * albedo.y) (tp.z * albedo.z))

/-- How kernel_sort disposes of one trace-queue record. -/
inductive SortOutcome where
  /-- triangle id INVALID: sky contribution folded into the frame, return. -/
  | missSky
  /-- light hit with should_count_light_contribution true: emission folded
  into the frame, return. -/
  | lightTaken
  /-- light hit with NEE enabled and the ray MIS-eligible: a weighted
  contribution is added if MIS is enabled, otherwise dropped; return. -/
  | lightMis
  /-- non-light hit killed by the Russian-roulette gate: return. -/
  | rrKilled
  /-- routed to the diffuse queue. -/
  | toDiffuse
  /-- routed to the dielectric queue. -/
  | toDielectric
  /-- routed to the glossy queue. -/
  | toGlossy
deriving DecidableEq, Repr

/-- Whether the outcome increments a material-queue counter. -/
def SortOutcome.queued : SortOutcome → Bool
  | .toDiffuse => true
  | .toDielectric => true
  | .toGlossy => true
  | _ => false

/-- The control flow of kernel_sort for one record (Pathtracer.cu lines
111-302): miss test, light handling with the NEE / MIS flags, then the
Russian-roulette gate (bounce > 0 only, kill when the draw exceeds the
survival probability) before routing on the material type. -/
def kernel_sort_outcome (sc : SortScene) (s : Settings) (bounce : Nat)
    (frame_albedo : Nat → Float3) (r : TraceRay) : SortOutcome :=
  if r.hit.triangle_id = INVALID then .missSky
  else
    let material_id := sc.triangle_material_id r.hit.triangle_id
    let rr_kill : Prop :=
      0 < bounce ∧
        rr_survival (traceThroughput bounce r) (frame_albedo r.pixel_index) < r.rng
    match sc.material_type material_id with
    | .LIGHT =>
        if (if s.enable_next_event_estimation then !r.mis_eligable else true)
        then .lightTaken else .lightMis
    | .DIFFUSE => if rr_kill then .rrKilled else .toDiffuse
    | .DIELECTRIC => if rr_kill then .rrKilled else .toDielectric
    | .GLOSSY => if rr_kill then .rrKilled else .toGlossy

/-- The queue payload written for a routed hit: direction, hit and pixel index
always; throughput (scaled by the survival probability at bounce > 0) only
when bounce > 0. -/
def sortPayload (bounce : Nat) (frame_albedo : Nat → Float3) (r : TraceRay) :
    ShadePayload :=
  let tp := traceThroughput bounce r
  { direction := r.direction
    hit := r.hit
    pixel_index := r.pixel_index
    throughput :=
      if 0 < bounce then
        some ((1 / rr_survival tp (frame_albedo r.pixel_index)) • tp)
      else none }

/-- State effect of kernel_sort on one trace-queue record, dispatching on the
control-flow outcome; B is BATCH_SIZE.  The pixel_query probe and the SVGF
g-buffer writes touch no frame buffer or queue and are not modelled. -/
def kernel_sort_step (B : Nat) (sc : SortScene) (s : Settings) (bounce : Nat)
    (st : SortState) (r : TraceRay) : SortState :=
  let p := r.pixel_index
  let tp := traceThroughput bounce r
  match kernel_sort_outcome sc s bounce st.frames.albedo r with
  | .missSky =>
      let illumination := tp * sc.sample_sky r.direction
      if bounce = 0 then (st.writeAlbedoOne s p).setDirect p illumination
      else if bounce = 1 then st.addDirect p illumination
      else st.addIndirect p illumination
  | .lightTaken =>
      let emission := sc.material_emission (sc.triangle_material_id r.hit.triangle_id)
      if bounce = 0 then (st.writeAlbedoOne s p).setDirect p emission
      else if bounce = 1 then st.addDirect p (tp * emission)
      else st.addIndirect p (tp * emission)
  | .lightMis =>
      if s.enable_multiple_importance_sampling then
        let emission := sc.material_emission (sc.triangle_material_id r.hit.triangle_id)
        let to_light := sc.light_point_world r.hit - r.origin
        let distance_to_light_squared := Float3.dot to_light to_light
        let cos_o := |Float3.dot ((1 / sc.sqrtf distance_to_light_squared) • to_light)
          (sc.light_normal_world r.hit)|
        let power := emission.x + emission.y + emission.z
        let brdf_pdf := r.last_pdf
        let light_pdf := power * distance_to_light_squared / (cos_o * sc.lights_total_power)
        let mis_pdf := brdf_pdf + light_pdf
        let illumination := (brdf_pdf / mis_pdf) • (tp * emission)
        if bounce = 1 then st.addDirect p illumination
        else st.addIndirect p illumination
      else st
  | .rrKilled => st
  | .toDiffuse => st.pushDiffuse (sortPayload bounce st.frames.albedo r)
  | .toDielectric => st.pushDielectric (sortPayload bounce st.frames.albedo r)
  | .toGlossy => st.pushGlossy B (sortPayload bounce st.frames.albedo r)

/-- Processing the whole trace queue of one bounce, in slot order (the atomic
allocation makes the queue contents order-independent up to permutation; the
invariants proved below concern counters, slots and per-pixel sums). -/
def kernel_sort_batch (B : Nat) (sc : SortScene) (s : Settings) (bounce : Nat)
    (st : SortState) (rays : List TraceRay) : SortState :=
  rays.foldl (kernel_sort_step B sc s bounce) st

/-- Running the sort kernel over a whole bounce, all queue counters starting
from zero as the host resets them each frame. -/
def kernel_sort_run (B : Nat) (sc : SortScene) (s : Settings) (bounce : Nat)
    (frames : FrameBuffers) (rays : List TraceRay) : SortState :=
  kernel_sort_batch B sc s bounce ⟨frames, QueueState.init⟩ rays

/-- Slot-shape invariant of the double-ended dielectric/glossy buffer: the
dielectric writes occupy slots 0,1,... in order and the glossy writes occupy
slots B-1, B-2, ... in order. -/
def SlotInv (B : Nat) (q : QueueState) : Prop :=
  q.dielectric_writes.map Prod.fst = List.range q.n_dielectric ∧
  q.glossy_writes.map Prod.fst = (List.range q.n_glossy).map (fun j => B - 1 - j)

/-- The write list of the material queue a non-light material type routes to. -/
def QueueState.writesOf : MaterialType → QueueState → List (Nat × ShadePayload)
  | .DIFFUSE, q => q.diffuse_writes
  | .DIELECTRIC, q => q.dielectric_writes
  | .GLOSSY, q => q.glossy_writes
  | .LIGHT, _ => []

/-- A demonstration scene whose every triangle is an emissive light. -/
def demoSceneLight : SortScene where
  triangle_material_id := fun _ => 0
  material_type := fun _ => MaterialType.LIGHT
  material_emission := fun _ => Float3.one
  sample_sky := fun _ => ⟨1/2, 1/2, 1/2⟩
  light_point_world := fun _ => Float3.zero
  light_normal_world := fun _ => ⟨0, 0, 1⟩
  lights_total_power := 3
  sqrtf := fun q => q

/-- A demonstration scene whose every triangle is diffuse. -/
def demoSceneDiffuse : SortScene where
  triangle_material_id := fun _ => 0
  material_type := fun _ => MaterialType.DIFFUSE
  material_emission := fun _ => Float3.zero
  sample_sky := fun _ => ⟨1/2, 1/2, 1/2⟩
  light_point_world := fun _ => Float3.zero
  light_normal_world := fun _ => ⟨0, 0, 1⟩
  lights_total_power := 0
  sqrtf := fun q => q

/-- A demonstration scene where triangle 0 is dielectric and the rest glossy. -/
def demoSceneMixed : SortScene where
  triangle_material_id := fun t => t.toNat
  material_type := fun m => if m = 0 then MaterialType.DIELECTRIC else MaterialType.GLOSSY
  material_emission := fun _ => Float3.zero
  sample_sky := fun _ => ⟨1/2, 1/2, 1/2⟩
  light_point_world := fun _ => Float3.zero
  light_normal_world := fun _ => ⟨0, 0, 1⟩
  lights_total_power := 0
  sqrtf := fun q => q

/-- Demonstration settings: NEE and MIS on, everything image-space off. -/
def demoSettings : Settings where
  enable_svgf := false
  enable_taa := false
  modulate_albedo := false
  enable_next_event_estimation := true
  enable_multiple_importance_sampling := true
  reconstruction_filter := ReconstructionFilter.BOX
  num_bounces := 8

/-- Demonstration frame buffers: unit albedo, black direct and indirect. -/
def demoFrames : FrameBuffers where
  albedo := fun _ => Float3.one
  direct := fun _ => Float3.zero
  indirect := fun _ => Float3.zero

/-- Demonstration frame buffers with a dim (1/4) albedo at every pixel. -/
def demoFramesDim : FrameBuffers where
  albedo := fun _ => ⟨1/4, 1/4, 1/4⟩
  direct := fun _ => Float3.zero
  indirect := fun _ => Float3.zero

/-- Demonstration sort state over demoFrames with empty queues. -/
def demoState : SortState := ⟨demoFrames, QueueState.init⟩

/-- Demonstration sort state over demoFramesDim with empty queues. -/
def demoStateDim : SortState := ⟨demoFramesDim, QueueState.init⟩

/-- A demonstration record whose hit missed the scene. -/
def demoMissRay : TraceRay where
  origin := Float3.zero
  direction := ⟨0, 0, 1⟩
  hit := ⟨1, 0, 0, 0, INVALID⟩
  pixel_index := 3
  mis_eligable := false
  throughput := Float3.one
  last_pdf := 1
  rng := 1/2

/-- A demonstration MIS-eligible record that hit a light triangle. -/
def demoLightRay : TraceRay where
  origin := Float3.zero
  direction := ⟨0, 0, 1⟩
  hit := ⟨1, 0, 0, 0, 7⟩
  pixel_index := 3
  mis_eligable := true
  throughput := Float3.one
  last_pdf := 1
  rng := 1/2

/-- A demonstration record that hit a diffuse triangle and whose
Russian-roulette draw exceeds the survival probability. -/
def demoKillRay : TraceRay where
  origin := Float3.zero
  direction := ⟨0, 0, 1⟩
  hit := ⟨1, 0, 0, 0, 5⟩
  pixel_index := 3
  mis_eligable := false
  throughput := Float3.one
  last_pdf := 1
  rng := 1/2

/-- A demonstration record that hit a diffuse triangle and whose
Russian-roulette draw is below the survival probability. -/
def demoSurviveRay : TraceRay where
  origin := Float3.zero
  direction := ⟨0, 0, 1⟩
  hit := ⟨1, 0, 0, 0, 5⟩
  pixel_index := 3
  mis_eligable := false
  throughput := Float3.one
  last_pdf := 1
  rng := 1/8

/-- Demonstration records hitting triangle 0 (dielectric) and 1 (glossy). -/
def demoMixedRays : List TraceRay :=
  [{ origin := Float3.zero, direction := ⟨0, 0, 1⟩, hit := ⟨1, 0, 0, 0, 0⟩,
     pixel_index := 0, mis_eligable := false, throughput := Float3.one,
     last_pdf := 1, rng := 0 },
   { origin := Float3.zero, direction := ⟨0, 0, 1⟩, hit := ⟨1, 0, 0, 0, 1⟩,
     pixel_index := 1, mis_eligable := false, throughput := Float3.one,
     last_pdf := 1, rng := 0 }]

/-- Environment of nee_sample: EPSILON and screen_pitch are device constants
(Common.h is not in the snapshot), sqrtf the CUDA intrinsic,
lights_total_power the device constant, and the MIS flag the settings field
the estimator reads. -/
structure NeeEnv where
  sqrtf : ℚ → ℚ
  epsilon : ℚ
  lights_total_power : ℚ
  screen_pitch : Nat
  enable_multiple_importance_sampling : Bool

/-- The sampled light as produced by random_point_on_random_light,
triangle_get_positions_and_normals, triangle_barycentric and the world
transform (all in headers outside the snapshot): world-space light point,
world-space light normal before normalization, and the emission of the light
material. -/
structure LightSample where
  light_point : Float3
  light_normal : Float3
  emission : Float3

/-- One record of the shadow queue (ray_buffer_shadow): origin, unit
direction, max distance, the staged unclamped radiance and the target pixel. -/
structure ShadowRay where
  ray_origin : Float3
  ray_direction : Float3
  max_distance : ℚ
  illumination : Float3
  pixel_index : Nat
deriving DecidableEq, Repr

/-- cuda_math normalize, with the sqrtf intrinsic explicit. -/
def normalize3 (sqrtf : ℚ → ℚ) (v : Float3) : Float3 :=
  (1 / sqrtf (Float3.dot v v)) • v

/-- distance_to_light_squared of nee_sample. -/
def nee_dist2 (hit_point : Float3) (ls : LightSample) : ℚ :=
  Float3.dot (ls.light_point - hit_point) (ls.light_point - hit_point)

/-- The normalized to_light vector of nee_sample. -/
def nee_to_light (env : NeeEnv) (hit_point : Float3) (ls : LightSample) : Float3 :=
  (1 / env.sqrtf (nee_dist2 hit_point ls)) • (ls.light_point - hit_point)

/-- cos_o = -dot(to_light, light_normal), the light normal normalized. -/
def nee_cos_o (env : NeeEnv) (hit_point : Float3) (ls : LightSample) : ℚ :=
  -(Float3.dot (nee_to_light env hit_point ls) (normalize3 env.sqrtf ls.light_normal))

/-- cos_i = dot(to_light, hit_normal). -/
def nee_cos_i (env : NeeEnv) (hit_point hit_normal : Float3) (ls : LightSample) : ℚ :=
  Float3.dot (nee_to_light env hit_point ls) hit_normal

/-- light_pdf = power * distance^2 / (cos_o * lights_total_power). -/
def nee_light_pdf (env : NeeEnv) (hit_point : Float3) (ls : LightSample) : ℚ :=
  (ls.emission.x + ls.emission.y + ls.emission.z) * nee_dist2 hit_point ls /
    (nee_cos_o env hit_point ls * env.lights_total_power)

/-- The estimator pdf: brdf_pdf + light_pdf when MIS is enabled, light_pdf
otherwise. -/
def nee_pdf (env : NeeEnv) (brdf_pdf : ℚ) (hit_point : Float3)
    (ls : LightSample) : ℚ :=
  if env.enable_multiple_importance_sampling
  then brdf_pdf + nee_light_pdf env hit_point ls
  else nee_light_pdf env hit_point ls

/-- nee_sample (Pathtracer.cu lines 304-379).  brdf_evaluator models the
BRDFEvaluator lambda: it returns (brdf value, brdf pdf) for the given
to_light and cos_i.  When cos_o > 0 and cos_i > 0 the staged shadow ray is
appended at the slot the atomic counter allocates (the end of the queue);
otherwise the queue is returned untouched. -/
def nee_sample (env : NeeEnv) (x y : Nat)
    (hit_point hit_normal throughput : Float3) (ls : LightSample)
    (brdf_evaluator : Float3 → ℚ → ℚ × ℚ) (shadow_queue : List ShadowRay) :
    List ShadowRay :=
  let to_light := nee_to_light env hit_point ls
  let cos_o := nee_cos_o env hit_point ls
  let cos_i := nee_cos_i env hit_point hit_normal ls
  if 0 < cos_o ∧ 0 < cos_i then
    let eval := brdf_evaluator to_light cos_i
    let pdf := nee_pdf env eval.2 hit_point ls
    shadow_queue ++
      [{ ray_origin := hit_point
         ray_direction := to_light
         max_distance := env.sqrtf (nee_dist2 hit_point ls) - env.epsilon
         illumination := (eval.1 / pdf) • (throughput * ls.emission)
         pixel_index := x + y * env.screen_pitch }]
  else shadow_queue

/-- Modelled from the spec: the deposit step of the shadow pipeline
(kernel_trace_shadow and bvh_trace_shadow live in Raytracing/BVH.h, which is
not in the snapshot).  Per the spec, shadow rays carry an unclamped
precomputed radiance, deposited into the frame buffer only if the any-hit
test returns no occluder within the max distance; occluded is the result of
that any-hit test. -/
def shadow_ray_resolve (occluded : Bool) (fb : Nat → Float3) (sr : ShadowRay) :
    Nat → Float3 :=
  if occluded then fb
  else Function.update fb sr.pixel_index (fb sr.pixel_index + sr.illumination)

/-- MaterialDielectric as kernel_shade_dielectric reads it. -/
structure MaterialDielectric where
  index_of_refraction : ℚ
  negative_absorption : Float3

/-- The absorption coefficient sigma_a of the Lambert-Beer law; the material
stores its negation (negative_absorption). -/
def MaterialDielectric.sigma_a (m : MaterialDielectric) : Float3 :=
  -m.negative_absorption

/-- cuda_math reflect: i - 2 dot(n, i) n. -/
def reflect (i n : Float3) : Float3 := i - (2 * Float3.dot n i) • n

/-- The facing data kernel_shade_dielectric selects at lines 598-626: entering
(dot(direction, normal) < 0) uses eta_1 = 1, eta_2 = ior and the outward
normal; leaving swaps the etas, flips the normal and applies the per-channel
Lambert-Beer attenuation exp(negative_absorption * t) to the throughput. -/
structure DielectricFacing where
  eta_1 : ℚ
  eta_2 : ℚ
  normal : Float3
  cos_theta : ℚ
  throughput : Float3

def dielectric_facing (expf : ℚ → ℚ) (m : MaterialDielectric)
    (ray_direction hit_normal : Float3) (hit_t : ℚ)
    (ray_throughput : Float3) : DielectricFacing :=
  if Float3.dot ray_direction hit_normal < 0 then
    { eta_1 := 1
      eta_2 := m.index_of_refraction
      normal := hit_normal
      cos_theta := -(Float3.dot ray_direction hit_normal)
      throughput := ray_throughput }
  else
    { eta_1 := m.index_of_refraction
      eta_2 := 1
      normal := -hit_normal
      cos_theta := Float3.dot ray_direction hit_normal
      throughput :=
        ⟨ray_throughput.x * expf (m.negative_absorption.x * hit_t),
         ray_throughput.y * expf (m.negative_absorption.y * hit_t),
         ray_throughput.z * expf (m.negative_absorption.z * hit_t)⟩ }

/-- k = 1 - eta^2 (1 - cos^2 theta) with eta = eta_1 / eta_2. -/
def dielectric_k (expf : ℚ → ℚ) (m : MaterialDielectric)
    (ray_direction hit_normal : Float3) (hit_t : ℚ)
    (ray_throughput : Float3) : ℚ :=
  let fc := dielectric_facing expf m ray_direction hit_normal hit_t ray_throughput
  let eta := fc.eta_1 / fc.eta_2
  1 - eta * eta * (1 - fc.cos_theta * fc.cos_theta)

/-- The refracted direction normalize(eta d + (eta cos_theta - sqrt k) n). -/
def dielectric_refracted (sqrtf expf : ℚ → ℚ) (m : MaterialDielectric)
    (ray_direction hit_normal : Float3) (hit_t : ℚ)
    (ray_throughput : Float3) : Float3 :=
  let fc := dielectric_facing expf m ray_direction hit_normal hit_t ray_throughput
  let eta := fc.eta_1 / fc.eta_2
  normalize3 sqrtf (eta • ray_direction +
    (eta * fc.cos_theta -
      sqrtf (dielectric_k expf m ray_direction hit_normal hit_t ray_throughput)) •
        hit_normal)

/-- The outgoing direction and throughput of one dielectric hit. -/
structure DielectricResult where
  direction_out : Float3
  throughput_out : Float3
deriving DecidableEq, Repr

/-- kernel_shade_dielectric (Pathtracer.cu lines 559-675), its per-hit ray
computation: facing selection and Lambert-Beer, k, total internal reflection
when k < 0, otherwise one uniform draw u against the Fresnel term selects
reflection (u < f) or refraction.  sqrtf, expf and fresnel (Material.h or
Util.h, outside the snapshot) are abstract. -/
def kernel_shade_dielectric (sqrtf expf : ℚ → ℚ)
    (fresnel : ℚ → ℚ → ℚ → ℚ → ℚ) (m : MaterialDielectric)
    (ray_direction hit_normal : Float3) (hit_t : ℚ) (ray_throughput : Float3)
    (u : ℚ) : DielectricResult :=
  let fc := dielectric_facing expf m ray_direction hit_normal hit_t ray_throughput
  let k := dielectric_k expf m ray_direction hit_normal hit_t ray_throughput
  let ray_direction_reflected := reflect ray_direction hit_normal
  let direction_out :=
    if k < 0 then ray_direction_reflected
    else
      let refr := dielectric_refracted sqrtf expf m ray_direction hit_normal
        hit_t ray_throughput
      let f := fresnel fc.eta_1 fc.eta_2 fc.cos_theta (-(Float3.dot refr fc.normal))
      if u < f then ray_direction_reflected else refr
  ⟨direction_out, fc.throughput⟩

/-- MaterialGlossy fields kernel_shade_glossy reads for the emission tail. -/
structure MaterialGlossy where
  index_of_refraction : ℚ
  roughness : ℚ

/-- The microfacet helpers of kernel_shade_glossy (Material.h, outside the
snapshot): Schlick Fresnel, the D term (computed by the source at line 806
but unused in the emission tail), the G term, and ROUGHNESS_CUTOFF. -/
structure MicrofacetEnv where
  fresnel_schlick : ℚ → ℚ → ℚ → ℚ
  microfacet_G : ℚ → ℚ → ℚ → ℚ → ℚ → ℚ → ℚ
  roughness_cutoff : ℚ

/-- What kernel_shade_glossy writes for the next-bounce extension ray. -/
structure GlossyEmit where
  direction_out : Float3
  throughput_stored : Option Float3
  last_pdf : ℚ
  mis_eligable : Bool
deriving DecidableEq, Repr

/-- The next-bounce emission tail of kernel_shade_glossy (Pathtracer.cu lines
741-747 and 796-819): direction_out = reflect(direction, micro normal),
weight = |i.m| F G / |i.n * m.n|; the throughput carried forward is
ray_throughput (times albedo at bounce > 0) and the weight is written into
last_pdf; MIS eligibility is roughness >= ROUGHNESS_CUTOFF. -/
def kernel_shade_glossy_emit (env : MicrofacetEnv) (m : MaterialGlossy)
    (alpha : ℚ) (ray_direction hit_normal micro_normal_world : Float3)
    (ray_throughput albedo : Float3) (bounce : Nat) : GlossyEmit :=
  let throughput := if 0 < bounce then ray_throughput * albedo else ray_throughput
  let direction_out := reflect ray_direction micro_normal_world
  let i_dot_m := -(Float3.dot ray_direction micro_normal_world)
  let o_dot_m := Float3.dot direction_out micro_normal_world
  let i_dot_n := -(Float3.dot ray_direction hit_normal)
  let o_dot_n := Float3.dot direction_out hit_normal
  let m_dot_n := Float3.dot micro_normal_world hit_normal
  let F := env.fresnel_schlick m.index_of_refraction 1 i_dot_m
  let G := env.microfacet_G i_dot_m o_dot_m i_dot_n o_dot_n m_dot_n alpha
  let weight := |i_dot_m| * F * G / |i_dot_n * m_dot_n|
  { direction_out := direction_out
    throughput_stored := if 0 < bounce then some throughput else none
    last_pdf := weight
    mis_eligable := env.roughness_cutoff ≤ m.roughness }

/-- The weight the spec says is propagated to throughput:
|i.m| * F * G / |i.n * m.n|. -/
def glossy_weight (env : MicrofacetEnv) (m : MaterialGlossy) (alpha : ℚ)
    (ray_direction hit_normal micro_normal_world : Float3) : ℚ :=
  let direction_out := reflect ray_direction micro_normal_world
  let i_dot_m := -(Float3.dot ray_direction micro_normal_world)
  let o_dot_m := Float3.dot direction_out micro_normal_world
  let i_dot_n := -(Float3.dot ray_direction hit_normal)
  let o_dot_n := Float3.dot direction_out hit_normal
  let m_dot_n := Float3.dot micro_normal_world hit_normal
  let F := env.fresnel_schlick m.index_of_refraction 1 i_dot_m
  let G := env.microfacet_G i_dot_m o_dot_m i_dot_n o_dot_n m_dot_n alpha
  |i_dot_m| * F * G / |i_dot_n * m_dot_n|

/-- Where the sub-pixel jitter of kernel_generate comes from; the numeric
Halton tables and the Box-Muller transform live outside the snapshot, so each
choice carries its index or uniform inputs. -/
inductive JitterChoice where
  | halton (slot : Nat)
  | box (jx jy : ℚ)
  | gaussian (u1 u2 : ℚ)
deriving DecidableEq, Repr

/-- Whether the jitter was taken from the Halton tables. -/
def JitterChoice.fromHalton : JitterChoice → Bool
  | .halton _ => true
  | _ => false

/-- The jitter selection of kernel_generate (Pathtracer.cu lines 66-89): the
Halton tables are used when settings.enable_svgf is set, the table slot being
sample_index & (TAA_HALTON_NUM_SAMPLES - 1); otherwise the reconstruction
filter selects the box jitter (u1, u2) or the Box-Muller Gaussian jitter
derived from (u1, u2). -/
def kernel_generate_jitter (s : Settings)
    (taa_halton_num_samples sample_index : Nat) (u1 u2 : ℚ) : JitterChoice :=
  if s.enable_svgf then .halton (sample_index &&& (taa_halton_num_samples - 1))
  else
    match s.reconstruction_filter with
    | .BOX => .box u1 u2
    | .GAUSSIAN => .gaussian u1 u2

/-- kernel_accumulate (Pathtracer.cu lines 825-849) at one pixel: colour =
direct + indirect, multiplied by the albedo buffer when modulate_albedo is
set, then folded into the accumulator by the online average
prev + (colour - prev) / frames_accumulated when frames_accumulated > 0,
else written directly. -/
def kernel_accumulate (s : Settings) (albedo direct indirect prev : Float3)
    (frames_accumulated : ℚ) : Float3 :=
  let colour := direct + indirect
  let colour := if s.modulate_albedo then colour * albedo else colour
  if 0 < frames_accumulated then prev + (1 / frames_accumulated) • (colour - prev)
  else colour

/-- The frames_since_camera_moved state machine of Pathtracer::update
(Pathtracer.cpp lines 639-654). -/
def update_frames_since_camera_moved
    (settings_changed enable_svgf camera_moved : Bool) (n : Nat) : Nat :=
  if settings_changed then 0
  else if enable_svgf then (n + 1) % 256
  else if camera_moved then 0
  else n + 1

/-- The counter after n consecutive frames in which the settings did not
change, SVGF is off and the camera did not move; frame 0 is the frame at
which the camera last moved (counter reset to 0). -/
def stillFrames : Nat → Nat
  | 0 => 0
  | n + 1 => update_frames_since_camera_moved false false false (stillFrames n)

/-- The accumulator at one pixel after frame n of a still sequence: each frame
renders fresh per-frame buffers, the host passes
float(frames_since_camera_moved), and kernel_accumulate folds the new colour
into the previous accumulator value (the pre-sequence accumulator contents
are irrelevant because frame 0 overwrites). -/
def accumulatorAfter (s : Settings) (albedo direct indirect : Nat → Float3) :
    Nat → Float3
  | 0 => kernel_accumulate s (albedo 0) (direct 0) (indirect 0) Float3.zero
      ((stillFrames 0 : Nat) : ℚ)
  | n + 1 => kernel_accumulate s (albedo (n + 1)) (direct (n + 1)) (indirect (n + 1))
      (accumulatorAfter s albedo direct indirect n) ((stillFrames (n + 1) : Nat) : ℚ)

/-- The colour kernel_accumulate folds in each frame under albedo modulation. -/
def frameColour (albedo direct indirect : Nat → Float3) (k : Nat) : Float3 :=
  (direct k + indirect k) * albedo k

/-- Projection homomorphisms of Float3, to push sums through components. -/
def Float3.xHom : Float3 →+ ℚ :=
  { toFun := Float3.x, map_zero' := rfl, map_add' := fun _ _ => rfl }

def Float3.yHom : Float3 →+ ℚ :=
  { toFun := Float3.y, map_zero' := rfl, map_add' := fun _ _ => rfl }

def Float3.zHom : Float3 →+ ℚ :=
  { toFun := Float3.z, map_zero' := rfl, map_add' := fun _ _ => rfl }

/-- Demonstration environment for nee_sample. -/
def demoNeeEnv : NeeEnv where
  sqrtf := fun q => q
  epsilon := 1/1000
  lights_total_power := 3
  screen_pitch := 1024
  enable_multiple_importance_sampling := true

/-- Demonstration light sample straight above the demonstration hit point. -/
def demoLightSample : LightSample where
  light_point := ⟨0, 0, 2⟩
  light_normal := ⟨0, 0, -1⟩
  emission := Float3.one

/-- Demonstration light sample facing away from the hit point. -/
def demoLightSampleAway : LightSample where
  light_point := ⟨0, 0, 2⟩
  light_normal := ⟨0, 0, 1⟩
  emission := Float3.one

/-- Demonstration dielectric: glass of ior 2 with some absorption. -/
def demoDielectric : MaterialDielectric where
  index_of_refraction := 2
  negative_absorption := ⟨-1/10, -1/5, -1/2⟩

/-- Demonstration glossy material. -/
def demoGlossyMat : MaterialGlossy where
  index_of_refraction := 3/2
  roughness := 1/2

/-- Demonstration microfacet helpers: F = 1/2, G = 1. -/
def demoMicrofacetEnv : MicrofacetEnv where
  fresnel_schlick := fun _ _ _ => 1/2
  microfacet_G := fun _ _ _ _ _ _ => 1
  roughness_cutoff := 3/10

/-- Settings with TAA requested but SVGF off. -/
def demoSettingsTaaOnly : Settings where
  enable_svgf := false
  enable_taa := true
  modulate_albedo := false
  enable_next_event_estimation := true
  enable_multiple_importance_sampling := true
  reconstruction_filter := ReconstructionFilter.BOX
  num_bounces := 8

/-- Settings with SVGF off and albedo modulation on, for the accumulator. -/
def demoSettingsAccum : Settings where
  enable_svgf := false
  enable_taa := false
  modulate_albedo := true
  enable_next_event_estimation := true
  enable_multiple_importance_sampling := true
  reconstruction_filter := ReconstructionFilter.BOX
  num_bounces := 8

@[simp] theorem writeAlbedoOne_queues (s : Settings) (st : SortState) (p : Nat) :
    (st.writeAlbedoOne s p).queues = st.queues := by
  unfold SortState.writeAlbedoOne; split <;> rfl

@[simp] theorem setDirect_queues (st : SortState) (p : Nat) (v : Float3) :
    (st.setDirect p v).queues = st.queues := rfl

@[simp] theorem addDirect_queues (st : SortState) (p : Nat) (v : Float3) :
    (st.addDirect p v).queues = st.queues := rfl

@[simp] theorem addIndirect_queues (st : SortState) (p : Nat) (v : Float3) :
    (st.addIndirect p v).queues = st.queues := rfl

@[simp] theorem writeAlbedoOne_direct (s : Settings) (st : SortState) (p : Nat) :
    (st.writeAlbedoOne s p).frames.direct = st.frames.direct := by
  unfold SortState.writeAlbedoOne; split <;> rfl

@[simp] theorem writeAlbedoOne_indirect (s : Settings) (st : SortState) (p : Nat) :
    (st.writeAlbedoOne s p).frames.indirect = st.frames.indirect := by
  unfold SortState.writeAlbedoOne; split <;> rfl

@[simp] theorem setDirect_direct (st : SortState) (p : Nat) (v : Float3) :
    (st.setDirect p v).frames.direct = Function.update st.frames.direct p v := rfl

@[simp] theorem setDirect_indirect (st : SortState) (p : Nat) (v : Float3) :
    (st.setDirect p v).frames.indirect = st.frames.indirect := rfl

@[simp] theorem setDirect_albedo (st : SortState) (p : Nat) (v : Float3) :
    (st.setDirect p v).frames.albedo = st.frames.albedo := rfl

@[simp] theorem addDirect_direct (st : SortState) (p : Nat) (v : Float3) :
    (st.addDirect p v).frames.direct =
      Function.update st.frames.direct p (st.frames.direct p + v) := rfl

@[simp] theorem addDirect_indirect (st : SortState) (p : Nat) (v : Float3) :
    (st.addDirect p v).frames.indirect = st.frames.indirect := rfl

@[simp] theorem addDirect_albedo (st : SortState) (p : Nat) (v : Float3) :
    (st.addDirect p v).frames.albedo = st.frames.albedo := rfl

@[simp] theorem addIndirect_indirect (st : SortState) (p : Nat) (v : Float3) :
    (st.addIndirect p v).frames.indirect =
      Function.update st.frames.indirect p (st.frames.indirect p + v) := rfl

@[simp] theorem addIndirect_direct (st : SortState) (p : Nat) (v : Float3) :
    (st.addIndirect p v).frames.direct = st.frames.direct := rfl

@[simp] theorem addIndirect_albedo (st : SortState) (p : Nat) (v : Float3) :
    (st.addIndirect p v).frames.albedo = st.frames.albedo := rfl

@[simp] theorem pushDiffuse_frames (st : SortState) (pay : ShadePayload) :
    (st.pushDiffuse pay).frames = st.frames := rfl

@[simp] theorem pushDielectric_frames (st : SortState) (pay : ShadePayload) :
    (st.pushDielectric pay).frames = st.frames := rfl

@[simp] theorem pushGlossy_frames (B : Nat) (st : SortState) (pay : ShadePayload) :
    (st.pushGlossy B pay).frames = st.frames := rfl

/-- A step whose outcome is terminal leaves the queue state untouched. -/
theorem step_queues_of_terminal (B : Nat) (sc : SortScene) (s : Settings)
    (bounce : Nat) (st : SortState) (r : TraceRay)
    (h : (kernel_sort_outcome sc s bounce st.frames.albedo r).queued = false) :
    (kernel_sort_step B sc s bounce st r).queues = st.queues := by
  unfold kernel_sort_step
  cases ho : kernel_sort_outcome sc s bounce st.frames.albedo r <;>
    simp [ho, SortOutcome.queued] at h ⊢ <;> split_ifs <;> simp

/-- Counter effect of one sort step, by outcome. -/
theorem step_counts (B : Nat) (sc : SortScene) (s : Settings)
    (bounce : Nat) (st : SortState) (r : TraceRay) :
    (kernel_sort_step B sc s bounce st r).queues.n_diffuse =
      st.queues.n_diffuse +
        (if kernel_sort_outcome sc s bounce st.frames.albedo r = .toDiffuse then 1 else 0) ∧
    (kernel_sort_step B sc s bounce st r).queues.n_dielectric =
      st.queues.n_dielectric +
        (if kernel_sort_outcome sc s bounce st.frames.albedo r = .toDielectric then 1 else 0) ∧
    (kernel_sort_step B sc s bounce st r).queues.n_glossy =
      st.queues.n_glossy +
        (if kernel_sort_outcome sc s bounce st.frames.albedo r = .toGlossy then 1 else 0) := by
  unfold kernel_sort_step
  cases ho : kernel_sort_outcome sc s bounce st.frames.albedo r <;>
    simp [ho, SortState.pushDiffuse, SortState.pushDielectric, SortState.pushGlossy] <;>
    split_ifs <;> simp

/-- Write-list effect of one sort step, by outcome. -/
theorem step_writes (B : Nat) (sc : SortScene) (s : Settings)
    (bounce : Nat) (st : SortState) (r : TraceRay) :
    (kernel_sort_step B sc s bounce st r).queues.diffuse_writes =
      st.queues.diffuse_writes ++
        (if kernel_sort_outcome sc s bounce st.frames.albedo r = .toDiffuse then
          [(st.queues.n_diffuse, sortPayload bounce st.frames.albedo r)] else []) ∧
    (kernel_sort_step B sc s bounce st r).queues.dielectric_writes =
      st.queues.dielectric_writes ++
        (if kernel_sort_outcome sc s bounce st.frames.albedo r = .toDielectric then
          [(st.queues.n_dielectric, sortPayload bounce st.frames.albedo r)] else []) ∧
    (kernel_sort_step B sc s bounce st r).queues.glossy_writes =
      st.queues.glossy_writes ++
        (if kernel_sort_outcome sc s bounce st.frames.albedo r = .toGlossy then
          [(B - 1 - st.queues.n_glossy, sortPayload bounce st.frames.albedo r)] else []) := by
  unfold kernel_sort_step
  cases ho : kernel_sort_outcome sc s bounce st.frames.albedo r <;>
    simp [ho, SortState.pushDiffuse, SortState.pushDielectric, SortState.pushGlossy] <;>
    split_ifs <;> simp

/-- At bounce > 0 no sort branch writes the albedo buffer. -/
theorem step_albedo_of_bounce_pos (B : Nat) (sc : SortScene) (s : Settings)
    (bounce : Nat) (st : SortState) (r : TraceRay) (h : 0 < bounce) :
    (kernel_sort_step B sc s bounce st r).frames.albedo = st.frames.albedo := by
  have hb0 : bounce ≠ 0 := Nat.pos_iff_ne_zero.mp h
  unfold kernel_sort_step
  cases ho : kernel_sort_outcome sc s bounce st.frames.albedo r <;>
    simp [ho, hb0] <;> split_ifs <;> simp

/-- At bounce 0 the Russian-roulette gate is off, so the outcome does not
depend on the albedo buffer. -/
theorem outcome_albedo_indep_of_bounce0 (sc : SortScene) (s : Settings)
    (a b : Nat → Float3) (r : TraceRay) :
    kernel_sort_outcome sc s 0 a r = kernel_sort_outcome sc s 0 b r := by
  unfold kernel_sort_outcome
  split <;> simp

/-- The outcome seen by a later ray of the same batch agrees with the outcome
computed against the albedo buffer the batch started from. -/
theorem outcome_congr_albedo (sc : SortScene) (s : Settings) (bounce : Nat)
    (a b : Nat → Float3) (r : TraceRay) (h : a = b ∨ bounce = 0) :
    kernel_sort_outcome sc s bounce a r = kernel_sort_outcome sc s bounce b r := by
  rcases h with h | h
  · rw [h]
  · subst h; exact outcome_albedo_indep_of_bounce0 sc s a b r

/-- Each of the three material counters after a whole batch equals its start
value plus the number of rays routed to that queue. -/
theorem batch_counts (B : Nat) (sc : SortScene) (s : Settings) (bounce : Nat) :
    ∀ (rays : List TraceRay) (st : SortState),
    (kernel_sort_batch B sc s bounce st rays).queues.n_diffuse =
      st.queues.n_diffuse + rays.countP
        (fun r => kernel_sort_outcome sc s bounce st.frames.albedo r = .toDiffuse) ∧
    (kernel_sort_batch B sc s bounce st rays).queues.n_dielectric =
      st.queues.n_dielectric + rays.countP
        (fun r => kernel_sort_outcome sc s bounce st.frames.albedo r = .toDielectric) ∧
    (kernel_sort_batch B sc s bounce st rays).queues.n_glossy =
      st.queues.n_glossy + rays.countP
        (fun r => kernel_sort_outcome sc s bounce st.frames.albedo r = .toGlossy) := by
  intro rays
  induction rays with
  | nil => intro st; simp [kernel_sort_batch]
  | cons r rs ih =>
    intro st
    have hstep : kernel_sort_batch B sc s bounce st (r :: rs) =
        kernel_sort_batch B sc s bounce (kernel_sort_step B sc s bounce st r) rs := rfl
    have halb : (kernel_sort_step B sc s bounce st r).frames.albedo = st.frames.albedo ∨
        bounce = 0 := by
      rcases Nat.eq_zero_or_pos bounce with h | h
      · right; exact h
      · left; exact step_albedo_of_bounce_pos B sc s bounce st r h
    obtain ⟨ihd, ihdi, ihg⟩ := ih (kernel_sort_step B sc s bounce st r)
    obtain ⟨hcd, hcdi, hcg⟩ := step_counts B sc s bounce st r
    have hcong : ∀ o : SortOutcome, rs.countP
        (fun x => kernel_sort_outcome sc s bounce
          (kernel_sort_step B sc s bounce st r).frames.albedo x = o) =
        rs.countP (fun x => kernel_sort_outcome sc s bounce st.frames.albedo x = o) := by
      intro o
      apply List.countP_congr
      intro x _
      have hx := outcome_congr_albedo sc s bounce
        (kernel_sort_step B sc s bounce st r).frames.albedo st.frames.albedo x halb
      simp [hx]
    refine ⟨?_, ?_, ?_⟩ <;> rw [hstep]
    · rw [ihd, hcong, hcd, List.countP_cons]
      by_cases hq : kernel_sort_outcome sc s bounce st.frames.albedo r =
          SortOutcome.toDiffuse <;> simp [hq] <;> omega
    · rw [ihdi, hcong, hcdi, List.countP_cons]
      by_cases hq : kernel_sort_outcome sc s bounce st.frames.albedo r =
          SortOutcome.toDielectric <;> simp [hq] <;> omega
    · rw [ihg, hcong, hcg, List.countP_cons]
      by_cases hq : kernel_sort_outcome sc s bounce st.frames.albedo r =
          SortOutcome.toGlossy <;> simp [hq] <;> omega

theorem step_slotInv (B : Nat) (sc : SortScene) (s : Settings) (bounce : Nat)
    (st : SortState) (r : TraceRay) (h : SlotInv B st.queues) :
    SlotInv B (kernel_sort_step B sc s bounce st r).queues := by
  obtain ⟨hd, hg⟩ := h
  obtain ⟨-, hwd, hwg⟩ := step_writes B sc s bounce st r
  obtain ⟨-, hcd, hcg⟩ := step_counts B sc s bounce st r
  constructor
  · rw [hwd, hcd]
    split_ifs with h1 <;> simp [hd, List.range_succ]
  · rw [hwg, hcg]
    split_ifs with h1 <;> simp [hg, List.range_succ]

theorem batch_slotInv (B : Nat) (sc : SortScene) (s : Settings) (bounce : Nat) :
    ∀ (rays : List TraceRay) (st : SortState), SlotInv B st.queues →
    SlotInv B (kernel_sort_batch B sc s bounce st rays).queues := by
  intro rays
  induction rays with
  | nil => intro st h; exact h
  | cons r rs ih =>
    intro st h
    exact ih (kernel_sort_step B sc s bounce st r) (step_slotInv B sc s bounce st r h)

/-- One step grows the three counters by at most one in total. -/
theorem step_total_le (B : Nat) (sc : SortScene) (s : Settings) (bounce : Nat)
    (st : SortState) (r : TraceRay) :
    (kernel_sort_step B sc s bounce st r).queues.n_diffuse +
      (kernel_sort_step B sc s bounce st r).queues.n_dielectric +
      (kernel_sort_step B sc s bounce st r).queues.n_glossy ≤
    st.queues.n_diffuse + st.queues.n_dielectric + st.queues.n_glossy + 1 := by
  obtain ⟨hcd, hcdi, hcg⟩ := step_counts B sc s bounce st r
  rw [hcd, hcdi, hcg]
  cases kernel_sort_outcome sc s bounce st.frames.albedo r <;> simp <;> omega

theorem batch_total_le (B : Nat) (sc : SortScene) (s : Settings) (bounce : Nat) :
    ∀ (rays : List TraceRay) (st : SortState),
    (kernel_sort_batch B sc s bounce st rays).queues.n_diffuse +
      (kernel_sort_batch B sc s bounce st rays).queues.n_dielectric +
      (kernel_sort_batch B sc s bounce st rays).queues.n_glossy ≤
    st.queues.n_diffuse + st.queues.n_dielectric + st.queues.n_glossy + rays.length := by
  intro rays
  induction rays with
  | nil => intro st; simp [kernel_sort_batch]
  | cons r rs ih =>
    intro st
    have h1 := ih (kernel_sort_step B sc s bounce st r)
    have h2 := step_total_le B sc s bounce st r
    have hstep : kernel_sort_batch B sc s bounce st (r :: rs) =
        kernel_sort_batch B sc s bounce (kernel_sort_step B sc s bounce st r) rs := rfl
    rw [hstep]
    simp only [List.length_cons]
    omega

@[simp] theorem queued_missSky : SortOutcome.missSky.queued = false := rfl

@[simp] theorem queued_lightTaken : SortOutcome.lightTaken.queued = false := rfl

@[simp] theorem queued_lightMis : SortOutcome.lightMis.queued = false := rfl

@[simp] theorem queued_rrKilled : SortOutcome.rrKilled.queued = false := rfl

@[simp] theorem queued_toDiffuse : SortOutcome.toDiffuse.queued = true := rfl

@[simp] theorem queued_toDielectric : SortOutcome.toDielectric.queued = true := rfl

@[simp] theorem queued_toGlossy : SortOutcome.toGlossy.queued = true := rfl

/-- Every record has exactly one outcome, so the queue-routing counts and the
terminal count partition the batch. -/
theorem length_eq_outcome_counts (p : TraceRay → SortOutcome) :
    ∀ l : List TraceRay, l.length =
      l.countP (fun r => p r = .toDiffuse) +
      l.countP (fun r => p r = .toDielectric) +
      l.countP (fun r => p r = .toGlossy) +
      l.countP (fun r => !(p r).queued) := by
  intro l
  induction l with
  | nil => simp
  | cons a t ih =>
    simp only [List.countP_cons, List.length_cons]
    cases h : p a <;> simp [h] <;> omega

/-- C1: a trace-queue record whose hit triangle id is INVALID deposits
throughput * sample_sky(direction) into the frame buffers (bounce 0 replaces
the direct value, bounce 1 adds to direct, bounce >= 2 adds to indirect) and
is not routed to any material queue. -/
theorem sort_miss_adds_sky (B : Nat) (sc : SortScene) (s : Settings)
    (bounce : Nat) (st : SortState) (r : TraceRay)
    (h : r.hit.triangle_id = INVALID) :
    (kernel_sort_step B sc s bounce st r).queues = st.queues ∧
    (bounce = 0 →
      (kernel_sort_step B sc s bounce st r).frames.direct =
        Function.update st.frames.direct r.pixel_index
          (traceThroughput bounce r * sc.sample_sky r.direction) ∧
      (kernel_sort_step B sc s bounce st r).frames.indirect = st.frames.indirect) ∧
    (bounce = 1 →
      (kernel_sort_step B sc s bounce st r).frames.direct =
        Function.update st.frames.direct r.pixel_index
          (st.frames.direct r.pixel_index +
            traceThroughput bounce r * sc.sample_sky r.direction) ∧
      (kernel_sort_step B sc s bounce st r).frames.indirect = st.frames.indirect) ∧
    (2 ≤ bounce →
      (kernel_sort_step B sc s bounce st r).frames.direct = st.frames.direct ∧
      (kernel_sort_step B sc s bounce st r).frames.indirect =
        Function.update st.frames.indirect r.pixel_index
          (st.frames.indirect r.pixel_index +
            traceThroughput bounce r * sc.sample_sky r.direction)) := by
  have ho : kernel_sort_outcome sc s bounce st.frames.albedo r = .missSky := by
    unfold kernel_sort_outcome; simp [h]
  refine ⟨step_queues_of_terminal B sc s bounce st r (by simp [ho, SortOutcome.queued]),
    ?_, ?_, ?_⟩
  · intro hb; subst hb
    constructor <;> simp [kernel_sort_step, ho]
  · intro hb; subst hb
    constructor <;> simp [kernel_sort_step, ho]
  · intro hb
    have h0 : ¬ bounce = 0 := by omega
    have h1 : ¬ bounce = 1 := by omega
    constructor <;> simp [kernel_sort_step, ho, h0, h1]

/-- Witness for C1 at bounce 1: the demonstration miss record adds the sky
sample to the direct buffer of its pixel and leaves the queues empty. -/
theorem sort_miss_adds_sky_witness :
    demoMissRay.hit.triangle_id = INVALID ∧
    (kernel_sort_step 8 demoSceneLight demoSettings 1 demoState demoMissRay).queues =
      demoState.queues ∧
    (kernel_sort_step 8 demoSceneLight demoSettings 1 demoState demoMissRay).frames.direct =
      Function.update demoState.frames.direct demoMissRay.pixel_index
        (demoState.frames.direct demoMissRay.pixel_index +
          traceThroughput 1 demoMissRay * demoSceneLight.sample_sky demoMissRay.direction) :=
  ⟨rfl,
   (sort_miss_adds_sky 8 demoSceneLight demoSettings 1 demoState demoMissRay rfl).1,
   ((sort_miss_adds_sky 8 demoSceneLight demoSettings 1 demoState demoMissRay rfl).2.2.1 rfl).1⟩

/-- Counterexample to C2 as stated: a MIS-eligible record hitting a light with
NEE and MIS enabled returns without incrementing any material counter, yet its
terminal path is none of the three listed kinds (miss, light taken without
MIS, Russian-roulette kill). -/
theorem sort_terminal_set_counterexample :
    kernel_sort_outcome demoSceneLight demoSettings 1 demoFrames.albedo demoLightRay =
      .lightMis ∧
    SortOutcome.lightMis ≠ SortOutcome.missSky ∧
    SortOutcome.lightMis ≠ SortOutcome.lightTaken ∧
    SortOutcome.lightMis ≠ SortOutcome.rrKilled ∧
    SortOutcome.lightMis.queued = false ∧
    (kernel_sort_step 8 demoSceneLight demoSettings 1 demoState demoLightRay).queues =
      QueueState.init := by
  refine ⟨by decide, by decide, by decide, by decide, by decide, ?_⟩
  have hq := step_queues_of_terminal 8 demoSceneLight demoSettings 1 demoState
    demoLightRay (by decide)
  rw [hq]; rfl

/-- C2 (amended): over a whole bounce the trace-queue length is partitioned as
N_trace = N_diffuse + N_dielectric + N_glossy + terminal_hits, where terminal
outcomes are misses, every light hit (taken in full, MIS-weighted, or
dropped) and Russian-roulette kills; moreover each step writes into at most
one material queue. -/
theorem sort_queue_partition (B : Nat) (sc : SortScene) (s : Settings)
    (bounce : Nat) (frames : FrameBuffers) (rays : List TraceRay) :
    (rays.length =
      (kernel_sort_run B sc s bounce frames rays).queues.n_diffuse +
      (kernel_sort_run B sc s bounce frames rays).queues.n_dielectric +
      (kernel_sort_run B sc s bounce frames rays).queues.n_glossy +
      rays.countP (fun r =>
        !(kernel_sort_outcome sc s bounce frames.albedo r).queued)) ∧
    (∀ (st : SortState) (r : TraceRay),
      ((kernel_sort_step B sc s bounce st r).queues.diffuse_writes =
          st.queues.diffuse_writes ∧
        (kernel_sort_step B sc s bounce st r).queues.dielectric_writes =
          st.queues.dielectric_writes ∧
        (kernel_sort_step B sc s bounce st r).queues.glossy_writes =
          st.queues.glossy_writes) ∨
      ((kernel_sort_step B sc s bounce st r).queues.diffuse_writes.length =
          st.queues.diffuse_writes.length + 1 ∧
        (kernel_sort_step B sc s bounce st r).queues.dielectric_writes =
          st.queues.dielectric_writes ∧
        (kernel_sort_step B sc s bounce st r).queues.glossy_writes =
          st.queues.glossy_writes) ∨
      ((kernel_sort_step B sc s bounce st r).queues.diffuse_writes =
          st.queues.diffuse_writes ∧
        (kernel_sort_step B sc s bounce st r).queues.dielectric_writes.length =
          st.queues.dielectric_writes.length + 1 ∧
        (kernel_sort_step B sc s bounce st r).queues.glossy_writes =
          st.queues.glossy_writes) ∨
      ((kernel_sort_step B sc s bounce st r).queues.diffuse_writes =
          st.queues.diffuse_writes ∧
        (kernel_sort_step B sc s bounce st r).queues.dielectric_writes =
          st.queues.dielectric_writes ∧
        (kernel_sort_step B sc s bounce st r).queues.glossy_writes.length =
          st.queues.glossy_writes.length + 1)) := by
  constructor
  · obtain ⟨hd, hdi, hg⟩ := batch_counts B sc s bounce rays ⟨frames, QueueState.init⟩
    have hpart := length_eq_outcome_counts
      (kernel_sort_outcome sc s bounce frames.albedo) rays
    simp only [kernel_sort_run]
    rw [hd, hdi, hg]
    simp only [QueueState.init]
    omega
  · intro st r
    obtain ⟨hw1, hw2, hw3⟩ := step_writes B sc s bounce st r
    cases ho : kernel_sort_outcome sc s bounce st.frames.albedo r <;>
      rw [ho] at hw1 hw2 hw3 <;> simp at hw1 hw2 hw3
    · exact Or.inl ⟨hw1, hw2, hw3⟩
    · exact Or.inl ⟨hw1, hw2, hw3⟩
    · exact Or.inl ⟨hw1, hw2, hw3⟩
    · exact Or.inl ⟨hw1, hw2, hw3⟩
    · exact Or.inr (Or.inl ⟨by rw [hw1]; simp, hw2, hw3⟩)
    · exact Or.inr (Or.inr (Or.inl ⟨hw1, by rw [hw2]; simp, hw3⟩))
    · exact Or.inr (Or.inr (Or.inr ⟨hw1, hw2, by rw [hw3]; simp⟩))

/-- C3: when the trace queue fits in one batch, the dielectric entries occupy
slots 0 .. N_dielectric-1, the glossy entries occupy slots B-1 down to
B-N_glossy of the shared buffer, the occupancy bound
N_dielectric + N_glossy <= B holds, and no slot is written by both queues. -/
theorem sort_shared_buffer_layout (B : Nat) (sc : SortScene) (s : Settings)
    (bounce : Nat) (frames : FrameBuffers) (rays : List TraceRay)
    (hlen : rays.length ≤ B) :
    (kernel_sort_run B sc s bounce frames rays).queues.n_dielectric +
      (kernel_sort_run B sc s bounce frames rays).queues.n_glossy ≤ B ∧
    (kernel_sort_run B sc s bounce frames rays).queues.dielectric_writes.map
        Prod.fst =
      List.range (kernel_sort_run B sc s bounce frames rays).queues.n_dielectric ∧
    (kernel_sort_run B sc s bounce frames rays).queues.glossy_writes.map
        Prod.fst =
      (List.range (kernel_sort_run B sc s bounce frames rays).queues.n_glossy).map
        (fun j => B - 1 - j) ∧
    ∀ a ∈ (kernel_sort_run B sc s bounce frames rays).queues.dielectric_writes.map
        Prod.fst,
      ∀ b ∈ (kernel_sort_run B sc s bounce frames rays).queues.glossy_writes.map
        Prod.fst, a ≠ b := by
  have htot := batch_total_le B sc s bounce rays ⟨frames, QueueState.init⟩
  obtain ⟨hd, hg⟩ := batch_slotInv B sc s bounce rays ⟨frames, QueueState.init⟩
    (by constructor <;> simp [QueueState.init])
  have h1 : (⟨frames, QueueState.init⟩ : SortState).queues.n_diffuse = 0 := rfl
  have h2 : (⟨frames, QueueState.init⟩ : SortState).queues.n_dielectric = 0 := rfl
  have h3 : (⟨frames, QueueState.init⟩ : SortState).queues.n_glossy = 0 := rfl
  simp only [kernel_sort_run]
  have hsum :
      (kernel_sort_batch B sc s bounce ⟨frames, QueueState.init⟩ rays).queues.n_dielectric +
      (kernel_sort_batch B sc s bounce ⟨frames, QueueState.init⟩ rays).queues.n_glossy ≤ B := by
    omega
  refine ⟨hsum, hd, hg, ?_⟩
  intro a ha b hb
  rw [hd] at ha
  rw [hg] at hb
  simp only [List.mem_range] at ha
  simp only [List.mem_map, List.mem_range] at hb
  obtain ⟨j, hj, rfl⟩ := hb
  omega

/-- Witness for C3: a two-record batch (one dielectric, one glossy hit) in a
batch of size 4 satisfies the occupancy bound and the slot layout. -/
theorem sort_shared_buffer_layout_witness :
    demoMixedRays.length ≤ 4 ∧
    (kernel_sort_run 4 demoSceneMixed demoSettings 0 demoFrames demoMixedRays).queues.n_dielectric +
      (kernel_sort_run 4 demoSceneMixed demoSettings 0 demoFrames demoMixedRays).queues.n_glossy ≤ 4 ∧
    (kernel_sort_run 4 demoSceneMixed demoSettings 0 demoFrames demoMixedRays).queues.dielectric_writes.map
        Prod.fst =
      List.range (kernel_sort_run 4 demoSceneMixed demoSettings 0 demoFrames demoMixedRays).queues.n_dielectric :=
  ⟨by decide,
   (sort_shared_buffer_layout 4 demoSceneMixed demoSettings 0 demoFrames
      demoMixedRays (by decide)).1,
   (sort_shared_buffer_layout 4 demoSceneMixed demoSettings 0 demoFrames
      demoMixedRays (by decide)).2.1⟩

/-- C4: the Russian-roulette gate of the sort kernel is applied only at
bounce >= 1; its survival probability is the saturated maximum component of
throughput * albedo, a draw above it terminates the ray with no state change,
a draw at or below it routes the ray with throughput scaled by 1/p, and zero
throughput gives survival probability zero. -/
theorem sort_russian_roulette (B : Nat) (sc : SortScene) (s : Settings)
    (bounce : Nat) (st : SortState) (r : TraceRay) (mt : MaterialType)
    (hhit : r.hit.triangle_id ≠ INVALID)
    (hmat : sc.material_type (sc.triangle_material_id r.hit.triangle_id) = mt)
    (hnl : mt ≠ MaterialType.LIGHT) :
    (bounce = 0 →
      kernel_sort_outcome sc s bounce st.frames.albedo r ≠ .rrKilled ∧
      (kernel_sort_outcome sc s bounce st.frames.albedo r).queued = true) ∧
    (0 < bounce →
      (rr_survival (traceThroughput bounce r) (st.frames.albedo r.pixel_index) <
          r.rng →
        kernel_sort_outcome sc s bounce st.frames.albedo r = .rrKilled ∧
        kernel_sort_step B sc s bounce st r = st) ∧
      (r.rng ≤
          rr_survival (traceThroughput bounce r) (st.frames.albedo r.pixel_index) →
        (kernel_sort_outcome sc s bounce st.frames.albedo r).queued = true ∧
        QueueState.writesOf mt (kernel_sort_step B sc s bounce st r).queues =
          QueueState.writesOf mt st.queues ++
            [((match mt with
                | .DIFFUSE => st.queues.n_diffuse
                | .DIELECTRIC => st.queues.n_dielectric
                | .GLOSSY => B - 1 - st.queues.n_glossy
                | .LIGHT => 0),
              { direction := r.direction, hit := r.hit,
                pixel_index := r.pixel_index,
                throughput := some
                  ((1 / rr_survival (traceThroughput bounce r)
                      (st.frames.albedo r.pixel_index)) •
                    traceThroughput bounce r) })])) ∧
    (traceThroughput bounce r = Float3.zero →
      rr_survival (traceThroughput bounce r) (st.frames.albedo r.pixel_index) = 0) := by
  cases mt with
  | LIGHT => exact absurd rfl hnl
  | DIFFUSE =>
    have ho : kernel_sort_outcome sc s bounce st.frames.albedo r =
        if 0 < bounce ∧ rr_survival (traceThroughput bounce r)
            (st.frames.albedo r.pixel_index) < r.rng
        then .rrKilled else .toDiffuse := by
      unfold kernel_sort_outcome; simp [hhit, hmat]
    refine ⟨?_, ?_, ?_⟩
    · intro hb; subst hb
      rw [ho]; simp
    · intro hb
      constructor
      · intro hlt
        have hoq : kernel_sort_outcome sc s bounce st.frames.albedo r = .rrKilled := by
          rw [ho, if_pos ⟨hb, hlt⟩]
        refine ⟨hoq, ?_⟩
        unfold kernel_sort_step
        rw [hoq]
      · intro hle
        have hoq : kernel_sort_outcome sc s bounce st.frames.albedo r = .toDiffuse := by
          rw [ho, if_neg]
          rintro ⟨-, hlt⟩
          exact absurd hle (not_le.mpr hlt)
        refine ⟨by rw [hoq]; rfl, ?_⟩
        unfold kernel_sort_step
        rw [hoq]
        simp [SortState.pushDiffuse, QueueState.writesOf, sortPayload, hb]
    · intro h0
      rw [h0]
      simp [rr_survival, saturate, vmax_max, fmaxf, fminf, Float3.zero]
  | DIELECTRIC =>
    have ho : kernel_sort_outcome sc s bounce st.frames.albedo r =
        if 0 < bounce ∧ rr_survival (traceThroughput bounce r)
            (st.frames.albedo r.pixel_index) < r.rng
        then .rrKilled else .toDielectric := by
      unfold kernel_sort_outcome; simp [hhit, hmat]
    refine ⟨?_, ?_, ?_⟩
    · intro hb; subst hb
      rw [ho]; simp
    · intro hb
      constructor
      · intro hlt
        have hoq : kernel_sort_outcome sc s bounce st.frames.albedo r = .rrKilled := by
          rw [ho, if_pos ⟨hb, hlt⟩]
        refine ⟨hoq, ?_⟩
        unfold kernel_sort_step
        rw [hoq]
      · intro hle
        have hoq : kernel_sort_outcome sc s bounce st.frames.albedo r =
            .toDielectric := by
          rw [ho, if_neg]
          rintro ⟨-, hlt⟩
          exact absurd hle (not_le.mpr hlt)
        refine ⟨by rw [hoq]; rfl, ?_⟩
        unfold kernel_sort_step
        rw [hoq]
        simp [SortState.pushDielectric, QueueState.writesOf, sortPayload, hb]
    · intro h0
      rw [h0]
      simp [rr_survival, saturate, vmax_max, fmaxf, fminf, Float3.zero]
  | GLOSSY =>
    have ho : kernel_sort_outcome sc s bounce st.frames.albedo r =
        if 0 < bounce ∧ rr_survival (traceThroughput bounce r)
            (st.frames.albedo r.pixel_index) < r.rng
        then .rrKilled else .toGlossy := by
      unfold kernel_sort_outcome; simp [hhit, hmat]
    refine ⟨?_, ?_, ?_⟩
    · intro hb; subst hb
      rw [ho]; simp
    · intro hb
      constructor
      · intro hlt
        have hoq : kernel_sort_outcome sc s bounce st.frames.albedo r = .rrKilled := by
          rw [ho, if_pos ⟨hb, hlt⟩]
        refine ⟨hoq, ?_⟩
        unfold kernel_sort_step
        rw [hoq]
      · intro hle
        have hoq : kernel_sort_outcome sc s bounce st.frames.albedo r = .toGlossy := by
          rw [ho, if_neg]
          rintro ⟨-, hlt⟩
          exact absurd hle (not_le.mpr hlt)
        refine ⟨by rw [hoq]; rfl, ?_⟩
        unfold kernel_sort_step
        rw [hoq]
        simp [SortState.pushGlossy, QueueState.writesOf, sortPayload, hb]
    · intro h0
      rw [h0]
      simp [rr_survival, saturate, vmax_max, fmaxf, fminf, Float3.zero]

/-- Witness for C4: at bounce 1 a dim albedo gives survival probability 1/4,
and the demonstration draw 1/2 kills the ray without any state change. -/
theorem sort_russian_roulette_witness :
    demoKillRay.hit.triangle_id ≠ INVALID ∧
    demoSceneDiffuse.material_type
      (demoSceneDiffuse.triangle_material_id demoKillRay.hit.triangle_id) =
        MaterialType.DIFFUSE ∧
    (0 : Nat) < 1 ∧
    rr_survival (traceThroughput 1 demoKillRay)
      (demoStateDim.frames.albedo demoKillRay.pixel_index) < demoKillRay.rng ∧
    kernel_sort_outcome demoSceneDiffuse demoSettings 1 demoStateDim.frames.albedo
      demoKillRay = .rrKilled ∧
    kernel_sort_step 8 demoSceneDiffuse demoSettings 1 demoStateDim demoKillRay =
      demoStateDim :=
  ⟨by decide, rfl, by decide,
   by norm_num [rr_survival, saturate, vmax_max, fmaxf, fminf, traceThroughput,
        demoKillRay, demoStateDim, demoFramesDim, Float3.one],
   (((sort_russian_roulette 8 demoSceneDiffuse demoSettings 1 demoStateDim
        demoKillRay MaterialType.DIFFUSE (by decide) rfl (by decide)).2.1
      (by decide)).1
      (by norm_num [rr_survival, saturate, vmax_max, fmaxf, fminf, traceThroughput,
        demoKillRay, demoStateDim, demoFramesDim, Float3.one])).1,
   (((sort_russian_roulette 8 demoSceneDiffuse demoSettings 1 demoStateDim
        demoKillRay MaterialType.DIFFUSE (by decide) rfl (by decide)).2.1
      (by decide)).1
      (by norm_num [rr_survival, saturate, vmax_max, fmaxf, fminf, traceThroughput,
        demoKillRay, demoStateDim, demoFramesDim, Float3.one])).2⟩

/-- C10: nee_sample appends at most one shadow ray, appends exactly one iff
cos_o > 0 and cos_i > 0, and otherwise leaves the shadow queue (counter and
buffer) untouched. -/
theorem nee_sample_queue_discipline (env : NeeEnv) (x y : Nat)
    (hit_point hit_normal throughput : Float3) (ls : LightSample)
    (brdf_evaluator : Float3 → ℚ → ℚ × ℚ) (q : List ShadowRay) :
    (nee_sample env x y hit_point hit_normal throughput ls brdf_evaluator
        q).length ≤ q.length + 1 ∧
    ((0 < nee_cos_o env hit_point ls ∧
        0 < nee_cos_i env hit_point hit_normal ls) ↔
      (nee_sample env x y hit_point hit_normal throughput ls brdf_evaluator
          q).length = q.length + 1) ∧
    (¬ (0 < nee_cos_o env hit_point ls ∧
        0 < nee_cos_i env hit_point hit_normal ls) →
      nee_sample env x y hit_point hit_normal throughput ls brdf_evaluator q = q) := by
  by_cases h : 0 < nee_cos_o env hit_point ls ∧
      0 < nee_cos_i env hit_point hit_normal ls <;>
    simp [nee_sample, h]

/-- Witness for C10: the facing demonstration light appends one shadow ray,
the away-facing one appends none. -/
theorem nee_sample_queue_discipline_witness :
    (nee_sample demoNeeEnv 2 3 Float3.zero ⟨0, 0, 1⟩ Float3.one demoLightSample
        (fun _ c => (c, c)) ([] : List ShadowRay)).length ≤
      ([] : List ShadowRay).length + 1 ∧
    nee_sample demoNeeEnv 2 3 Float3.zero ⟨0, 0, 1⟩ Float3.one demoLightSampleAway
        (fun _ c => (c, c)) ([] : List ShadowRay) = ([] : List ShadowRay) := by
  constructor
  · exact (nee_sample_queue_discipline demoNeeEnv 2 3 Float3.zero ⟨0, 0, 1⟩
      Float3.one demoLightSample (fun _ c => (c, c)) []).1
  · refine (nee_sample_queue_discipline demoNeeEnv 2 3 Float3.zero ⟨0, 0, 1⟩
      Float3.one demoLightSampleAway (fun _ c => (c, c)) []).2.2 ?_
    norm_num [nee_cos_o, nee_cos_i, nee_to_light, normalize3, nee_dist2,
      Float3.dot, Float3.zero, Float3.one, demoNeeEnv, demoLightSampleAway]

/-- C5: the staged shadow ray of next-event estimation has
max_distance = distance_to_light - EPSILON and pending radiance
throughput * brdf * emission / pdf, with pdf = brdf_pdf + light_pdf under MIS
and pdf = light_pdf otherwise; the staged radiance is deposited only when the
any-hit test reports no occluder within the max distance. -/
theorem nee_shadow_ray_spec (env : NeeEnv) (x y : Nat)
    (hit_point hit_normal throughput : Float3) (ls : LightSample)
    (brdf_evaluator : Float3 → ℚ → ℚ × ℚ) (q : List ShadowRay)
    (h : 0 < nee_cos_o env hit_point ls ∧
        0 < nee_cos_i env hit_point hit_normal ls) :
    nee_sample env x y hit_point hit_normal throughput ls brdf_evaluator q =
      q ++ [{ ray_origin := hit_point
              ray_direction := nee_to_light env hit_point ls
              max_distance := env.sqrtf (nee_dist2 hit_point ls) - env.epsilon
              illumination :=
                ((brdf_evaluator (nee_to_light env hit_point ls)
                    (nee_cos_i env hit_point hit_normal ls)).1 /
                  nee_pdf env
                    (brdf_evaluator (nee_to_light env hit_point ls)
                      (nee_cos_i env hit_point hit_normal ls)).2 hit_point ls) •
                  (throughput * ls.emission)
              pixel_index := x + y * env.screen_pitch }] ∧
    (∀ (fb : Nat → Float3) (sr : ShadowRay),
      shadow_ray_resolve true fb sr = fb ∧
      shadow_ray_resolve false fb sr =
        Function.update fb sr.pixel_index (fb sr.pixel_index + sr.illumination)) := by
  refine ⟨?_, fun fb sr => ⟨rfl, rfl⟩⟩
  unfold nee_sample
  rw [if_pos h]

/-- Witness for C5 with the demonstration light straight above the hit point
(cos_o = cos_i = 1/2 under the identity square root model). -/
theorem nee_shadow_ray_spec_witness :
    (0 < nee_cos_o demoNeeEnv Float3.zero demoLightSample ∧
      0 < nee_cos_i demoNeeEnv Float3.zero ⟨0, 0, 1⟩ demoLightSample) ∧
    nee_sample demoNeeEnv 2 3 Float3.zero ⟨0, 0, 1⟩ Float3.one demoLightSample
        (fun _ c => (c, c)) [] =
      [] ++ [{ ray_origin := Float3.zero
               ray_direction := nee_to_light demoNeeEnv Float3.zero demoLightSample
               max_distance :=
                 demoNeeEnv.sqrtf (nee_dist2 Float3.zero demoLightSample) -
                   demoNeeEnv.epsilon
               illumination :=
                 (((fun (_ : Float3) (c : ℚ) => (c, c))
                     (nee_to_light demoNeeEnv Float3.zero demoLightSample)
                     (nee_cos_i demoNeeEnv Float3.zero ⟨0, 0, 1⟩ demoLightSample)).1 /
                   nee_pdf demoNeeEnv
                     (((fun (_ : Float3) (c : ℚ) => (c, c))
                       (nee_to_light demoNeeEnv Float3.zero demoLightSample)
                       (nee_cos_i demoNeeEnv Float3.zero ⟨0, 0, 1⟩ demoLightSample)).2)
                     Float3.zero demoLightSample) •
                   (Float3.one * demoLightSample.emission)
               pixel_index := 2 + 3 * demoNeeEnv.screen_pitch }] := by
  have hc : 0 < nee_cos_o demoNeeEnv Float3.zero demoLightSample ∧
      0 < nee_cos_i demoNeeEnv Float3.zero ⟨0, 0, 1⟩ demoLightSample := by
    norm_num [nee_cos_o, nee_cos_i, nee_to_light, normalize3, nee_dist2,
      Float3.dot, Float3.zero, Float3.one, demoNeeEnv, demoLightSample]
  exact ⟨hc, (nee_shadow_ray_spec demoNeeEnv 2 3 Float3.zero ⟨0, 0, 1⟩ Float3.one
    demoLightSample (fun _ c => (c, c)) [] hc).1⟩

/-- C6: the dielectric kernel determines the facing side from the sign of
dot(direction, normal); when leaving it applies the Lambert-Beer attenuation
exp(-sigma_a * t) per channel; k = 1 - eta^2 (1 - cos^2 theta); k < 0 is
deterministic mirror reflection (total internal reflection), otherwise one
uniform draw against the Fresnel term selects reflection or refraction. -/
theorem shade_dielectric_spec (sqrtf expf : ℚ → ℚ)
    (fresnel : ℚ → ℚ → ℚ → ℚ → ℚ) (m : MaterialDielectric)
    (d n : Float3) (t : ℚ) (rt : Float3) (u : ℚ) :
    (Float3.dot d n < 0 →
      dielectric_facing expf m d n t rt =
        ⟨1, m.index_of_refraction, n, -(Float3.dot d n), rt⟩) ∧
    (0 ≤ Float3.dot d n →
      dielectric_facing expf m d n t rt =
        ⟨m.index_of_refraction, 1, -n, Float3.dot d n,
          ⟨rt.x * expf (-(m.sigma_a.x) * t),
           rt.y * expf (-(m.sigma_a.y) * t),
           rt.z * expf (-(m.sigma_a.z) * t)⟩⟩) ∧
    (kernel_shade_dielectric sqrtf expf fresnel m d n t rt u).throughput_out =
      (dielectric_facing expf m d n t rt).throughput ∧
    (dielectric_k expf m d n t rt < 0 →
      (kernel_shade_dielectric sqrtf expf fresnel m d n t rt u).direction_out =
        reflect d n) ∧
    (0 ≤ dielectric_k expf m d n t rt →
      (kernel_shade_dielectric sqrtf expf fresnel m d n t rt u).direction_out =
        (if u < fresnel (dielectric_facing expf m d n t rt).eta_1
            (dielectric_facing expf m d n t rt).eta_2
            (dielectric_facing expf m d n t rt).cos_theta
            (-(Float3.dot (dielectric_refracted sqrtf expf m d n t rt)
                (dielectric_facing expf m d n t rt).normal))
         then reflect d n
         else dielectric_refracted sqrtf expf m d n t rt)) := by
  refine ⟨?_, ?_, rfl, ?_, ?_⟩
  · intro h
    unfold dielectric_facing
    rw [if_pos h]
  · intro h
    unfold dielectric_facing
    rw [if_neg (not_lt.mpr h)]
    simp [MaterialDielectric.sigma_a]
  · intro hk
    simp [kernel_shade_dielectric, hk]
  · intro hk
    simp [kernel_shade_dielectric, not_lt.mpr hk]

/-- Witness for C6 at a leaving hit (dot = 1) with k = 1 and a draw above the
Fresnel value 1/2, selecting refraction. -/
theorem shade_dielectric_spec_witness :
    ((0:ℚ) ≤ Float3.dot ⟨0, 0, 1⟩ ⟨0, 0, 1⟩) ∧
    dielectric_facing (fun q => q) demoDielectric ⟨0, 0, 1⟩ ⟨0, 0, 1⟩ 2 Float3.one =
      ⟨demoDielectric.index_of_refraction, 1, -(⟨0, 0, 1⟩ : Float3),
        Float3.dot ⟨0, 0, 1⟩ ⟨0, 0, 1⟩,
        ⟨Float3.one.x * (fun (q : ℚ) => q) (-(demoDielectric.sigma_a.x) * 2),
         Float3.one.y * (fun (q : ℚ) => q) (-(demoDielectric.sigma_a.y) * 2),
         Float3.one.z * (fun (q : ℚ) => q) (-(demoDielectric.sigma_a.z) * 2)⟩⟩ ∧
    ((0:ℚ) ≤ dielectric_k (fun q => q) demoDielectric ⟨0, 0, 1⟩ ⟨0, 0, 1⟩ 2 Float3.one) ∧
    (kernel_shade_dielectric (fun q => q) (fun q => q) (fun _ _ _ _ => 1/2)
        demoDielectric ⟨0, 0, 1⟩ ⟨0, 0, 1⟩ 2 Float3.one (3/4)).direction_out =
      (if (3/4 : ℚ) < (fun _ _ _ _ => (1/2 : ℚ))
          (dielectric_facing (fun q => q) demoDielectric ⟨0, 0, 1⟩ ⟨0, 0, 1⟩ 2
            Float3.one).eta_1
          (dielectric_facing (fun q => q) demoDielectric ⟨0, 0, 1⟩ ⟨0, 0, 1⟩ 2
            Float3.one).eta_2
          (dielectric_facing (fun q => q) demoDielectric ⟨0, 0, 1⟩ ⟨0, 0, 1⟩ 2
            Float3.one).cos_theta
          (-(Float3.dot
              (dielectric_refracted (fun q => q) (fun q => q) demoDielectric
                ⟨0, 0, 1⟩ ⟨0, 0, 1⟩ 2 Float3.one)
              (dielectric_facing (fun q => q) demoDielectric ⟨0, 0, 1⟩ ⟨0, 0, 1⟩ 2
                Float3.one).normal))
       then reflect ⟨0, 0, 1⟩ ⟨0, 0, 1⟩
       else dielectric_refracted (fun q => q) (fun q => q) demoDielectric
         ⟨0, 0, 1⟩ ⟨0, 0, 1⟩ 2 Float3.one) := by
  have hd : (0:ℚ) ≤ Float3.dot ⟨0, 0, 1⟩ ⟨0, 0, 1⟩ := by norm_num [Float3.dot]
  have hk : (0:ℚ) ≤ dielectric_k (fun q => q) demoDielectric ⟨0, 0, 1⟩ ⟨0, 0, 1⟩ 2
      Float3.one := by
    norm_num [dielectric_k, dielectric_facing, Float3.dot, demoDielectric]
  exact ⟨hd,
    (shade_dielectric_spec (fun q => q) (fun q => q) (fun _ _ _ _ => 1/2)
      demoDielectric ⟨0, 0, 1⟩ ⟨0, 0, 1⟩ 2 Float3.one (3/4)).2.1 hd,
    hk,
    (shade_dielectric_spec (fun q => q) (fun q => q) (fun _ _ _ _ => 1/2)
      demoDielectric ⟨0, 0, 1⟩ ⟨0, 0, 1⟩ 2 Float3.one (3/4)).2.2.2.2 hk⟩

/-- C7: evaluation of the glossy emission tail at a concrete hit: the
microfacet weight equals 1/2 there and is written into the last_pdf field of
the extension ray, while the carried throughput stays
ray_throughput * albedo, without the weight factor the spec requires. -/
theorem glossy_weight_not_propagated :
    glossy_weight demoMicrofacetEnv demoGlossyMat (1/2)
      ⟨0, 0, -1⟩ ⟨0, 0, 1⟩ ⟨0, 0, 1⟩ = 1/2 ∧
    (kernel_shade_glossy_emit demoMicrofacetEnv demoGlossyMat (1/2)
        ⟨0, 0, -1⟩ ⟨0, 0, 1⟩ ⟨0, 0, 1⟩ Float3.one Float3.one 1).last_pdf =
      glossy_weight demoMicrofacetEnv demoGlossyMat (1/2)
        ⟨0, 0, -1⟩ ⟨0, 0, 1⟩ ⟨0, 0, 1⟩ ∧
    (kernel_shade_glossy_emit demoMicrofacetEnv demoGlossyMat (1/2)
        ⟨0, 0, -1⟩ ⟨0, 0, 1⟩ ⟨0, 0, 1⟩ Float3.one Float3.one 1).throughput_stored =
      some (Float3.one * Float3.one) ∧
    Float3.one * Float3.one ≠
      glossy_weight demoMicrofacetEnv demoGlossyMat (1/2)
        ⟨0, 0, -1⟩ ⟨0, 0, 1⟩ ⟨0, 0, 1⟩ •
        (Float3.one * Float3.one) := by
  refine ⟨?_, rfl, rfl, ?_⟩
  · norm_num [glossy_weight, reflect, Float3.dot, demoMicrofacetEnv, demoGlossyMat]
  · norm_num [glossy_weight, reflect, Float3.dot, demoMicrofacetEnv, demoGlossyMat,
      Float3.one]

/-- Counterexample to C8 as stated: with enable_taa set but enable_svgf off,
kernel_generate takes the box jitter of the reconstruction filter, not the
Halton jitter. -/
theorem generate_jitter_counterexample :
    demoSettingsTaaOnly.enable_taa = true ∧
    (kernel_generate_jitter demoSettingsTaaOnly 64 5 (1/4) (1/3)).fromHalton =
      false ∧
    kernel_generate_jitter demoSettingsTaaOnly 64 5 (1/4) (1/3) =
      JitterChoice.box (1/4) (1/3) :=
  ⟨rfl, rfl, rfl⟩

/-- C8 (amended): the sub-pixel jitter comes from the Halton tables exactly
when SVGF is enabled (the kernel tests enable_svgf; TAA runs only inside the
SVGF pipeline), the slot being sample_index masked to the table size;
otherwise the reconstruction filter selects the box jitter or the Box-Muller
Gaussian jitter. -/
theorem generate_jitter_selection (s : Settings) (nh i : Nat) (u1 u2 : ℚ) :
    (s.enable_svgf = true →
      kernel_generate_jitter s nh i u1 u2 =
        JitterChoice.halton (i &&& (nh - 1))) ∧
    (s.enable_svgf = false → s.reconstruction_filter = ReconstructionFilter.BOX →
      kernel_generate_jitter s nh i u1 u2 = JitterChoice.box u1 u2) ∧
    (s.enable_svgf = false →
      s.reconstruction_filter = ReconstructionFilter.GAUSSIAN →
      kernel_generate_jitter s nh i u1 u2 = JitterChoice.gaussian u1 u2) := by
  refine ⟨fun h => by simp [kernel_generate_jitter, h],
    fun h hf => by simp [kernel_generate_jitter, h, hf],
    fun h hf => by simp [kernel_generate_jitter, h, hf]⟩

/-- Witness for C8 (amended): SVGF on takes the Halton slot; SVGF off with
the box filter takes the box jitter. -/
theorem generate_jitter_selection_witness :
    demoSettingsTaaOnly.enable_svgf = false ∧
    demoSettingsTaaOnly.reconstruction_filter = ReconstructionFilter.BOX ∧
    kernel_generate_jitter demoSettingsTaaOnly 64 5 (1/4) (1/3) =
      JitterChoice.box (1/4) (1/3) :=
  ⟨rfl, rfl,
    (generate_jitter_selection demoSettingsTaaOnly 64 5 (1/4) (1/3)).2.1 rfl rfl⟩

theorem stillFrames_eq (n : Nat) : stillFrames n = n := by
  induction n with
  | zero => rfl
  | succ k ih => simp [stillFrames, update_frames_since_camera_moved, ih]

theorem float3_sum_x (t : Finset ℕ) (f : ℕ → Float3) :
    (∑ k in t, f k).x = ∑ k in t, (f k).x :=
  map_sum Float3.xHom f t

theorem float3_sum_y (t : Finset ℕ) (f : ℕ → Float3) :
    (∑ k in t, f k).y = ∑ k in t, (f k).y :=
  map_sum Float3.yHom f t

theorem float3_sum_z (t : Finset ℕ) (f : ℕ → Float3) :
    (∑ k in t, f k).z = ∑ k in t, (f k).z :=
  map_sum Float3.zHom f t

/-- C9: with SVGF off (the still-frame counter model) and albedo modulation
on, after n >= 1 frames since the camera last moved the accumulator equals
the mean of the per-frame albedo-modulated colours (direct + indirect) of
frames 1..n: the online average of kernel_accumulate computes that mean. -/
theorem accumulate_online_mean (s : Settings)
    (albedo direct indirect : Nat → Float3)
    (hmod : s.modulate_albedo = true) (n : Nat) (hn : 1 ≤ n) :
    accumulatorAfter s albedo direct indirect n =
      ((1 : ℚ) / n) •
        ∑ k in Finset.range n, frameColour albedo direct indirect (k + 1) := by
  induction n with
  | zero => omega
  | succ m ih =>
    rcases Nat.eq_zero_or_pos m with hm | hm
    · subst hm
      show kernel_accumulate s (albedo 1) (direct 1) (indirect 1)
          (accumulatorAfter s albedo direct indirect 0) ((stillFrames 1 : Nat) : ℚ) = _
      rw [stillFrames_eq]
      unfold kernel_accumulate
      rw [hmod]
      apply Float3.ext <;>
        simp [Finset.sum_range_one, frameColour] <;> ring
    · have ihm := ih hm
      have hm0 : (m : ℚ) ≠ 0 := Nat.cast_ne_zero.mpr (by omega)
      show kernel_accumulate s (albedo (m + 1)) (direct (m + 1)) (indirect (m + 1))
          (accumulatorAfter s albedo direct indirect m)
          ((stillFrames (m + 1) : Nat) : ℚ) = _
      rw [stillFrames_eq, ihm, Finset.sum_range_succ]
      unfold kernel_accumulate
      rw [hmod]
      have hpos : (0 : ℚ) < ((m + 1 : Nat) : ℚ) := by positivity
      rw [if_pos hpos]
      apply Float3.ext <;>
        simp [float3_sum_x, float3_sum_y, float3_sum_z, frameColour] <;>
        push_cast <;>
        field_simp <;>
        ring

/-- Witness for C9 over a constant colour stream at n = 2. -/
theorem accumulate_online_mean_witness :
    demoSettingsAccum.modulate_albedo = true ∧
    1 ≤ 2 ∧
    accumulatorAfter demoSettingsAccum (fun _ => Float3.one)
        (fun _ => ⟨1, 2, 3⟩) (fun _ => Float3.zero) 2 =
      ((1 : ℚ) / 2) •
        ∑ k in Finset.range 2,
          frameColour (fun _ => Float3.one) (fun _ => ⟨1, 2, 3⟩)
            (fun _ => Float3.zero) (k + 1) :=
  ⟨rfl, by norm_num,
    accumulate_online_mean demoSettingsAccum (fun _ => Float3.one)
      (fun _ => ⟨1, 2, 3⟩) (fun _ => Float3.zero) rfl 2 (by norm_num)⟩

end GPUPathtracer
